import Mathlib

/-!
Shallow embedding of `zpy/material.py` (material utilities for a Blender-like
host) together with proofs about the claims of its specification.

The host (bpy) state is modelled explicitly: materials carry a shader node
tree (nodes with named input sockets holding rational `default_value`s, and
links between sockets); objects carry an active-material slot and children;
the module-level dict `_SAVED_MATERIALS` becomes an association list inside
the state.  Python exceptions become an explicit error type; every stateful
function returns the state at the moment it returns or raises, so that
"raises before mutating" is expressible.  Python float arithmetic is modelled
over `ℚ`; the divergences proved below are structural (e.g. `+=` versus `=`)
and do not depend on rounding.
-/

namespace Zpy

/-- An input socket of a shader node: its name and its `default_value`.
Scalar values are one-element lists, RGBA values four-element lists. -/
structure Socket where
  name : String
  value : List ℚ
deriving DecidableEq

/-- A shader node: Blender identifies nodes inside a tree by `name`;
`ntype` is the bl idname the node was created with; `layer_name` models the
attribute of the same name on vertex-color nodes. -/
structure Node where
  name : String
  ntype : String
  inputs : List Socket
  layer_name : String := ""
deriving DecidableEq

/-- A link between an output socket and an input socket, identified by node
name and socket key (a socket name, or a numeric index rendered as text). -/
structure Link where
  fromNode : String
  fromSocket : String
  toNode : String
  toSocket : String
deriving DecidableEq

structure NodeTree where
  nodes : List Node
  links : List Link
deriving DecidableEq

/-- A Blender material: unique `name`, the `use_nodes` flag and its node
tree. -/
structure Material where
  name : String
  use_nodes : Bool
  node_tree : NodeTree
deriving DecidableEq

/-- A Blender object: `has_material_slot` models
`hasattr(obj, 'active_material')`; `material_slots` the list of material
names in the object's slots; `children` the names of the child objects. -/
structure Object where
  name : String
  has_material_slot : Bool
  active_material : Option String
  material_slots : List String
  children : List String
deriving DecidableEq

/-- Python exceptions raised by the module.  `danglingRef` marks a situation
unrepresentable in Python (a direct object reference whose target is not in
the scene); theorems assume it away. -/
inductive PyError
  | valueError (msg : String)
  | attributeError (msg : String)
  | typeError (msg : String)
  | keyError (msg : String)
  | assertionError (msg : String)
  | recursionError
  | danglingRef
deriving DecidableEq

/-- The modelled host state: `bpy.data.materials`, `bpy.data.objects`,
`bpy.context.scene.render.engine` and the module-global `_SAVED_MATERIALS`
dict (an insertion-ordered association list, as in CPython). -/
structure State where
  materials : List Material
  objects : List Object
  render_engine : String
  saved : List (String × (ℚ × ℚ × ℚ))
deriving DecidableEq

/-- A `Union[str, bpy.types.Material]` argument: either a name string or a
direct reference to the material of that name. -/
inductive MatArg
  | byName (s : String)
  | byRef (matName : String)
deriving DecidableEq

/-- A `Union[str, bpy.types.Object]` argument. -/
inductive ObjArg
  | byName (s : String)
  | byRef (objName : String)
deriving DecidableEq

/-- `bpy.data.materials.get(n)`. -/
def findMat (st : State) (n : String) : Option Material :=
  st.materials.find? (fun m => m.name == n)

/-- `bpy.data.objects.get(n)`. -/
def findObj (st : State) (n : String) : Option Object :=
  st.objects.find? (fun o => o.name == n)

/-- Write a mutation of the material named `n` back into the state. -/
def updateMat (st : State) (n : String) (f : Material → Material) : State :=
  { st with materials := st.materials.map (fun m => if m.name == n then f m else m) }

/-- A CPython dict read, `d.get(k, None)`: first (and only) binding wins. -/
def dictGet {α : Type} (l : List (String × α)) (k : String) : Option α :=
  match l with
  | [] => none
  | (k2, v) :: rest => if k2 == k then some v else dictGet rest k

/-- A CPython dict write, `d[k] = v`: overwrite in place if the key exists,
else append (insertion order preserved). -/
def dictSet {α : Type} (l : List (String × α)) (k : String) (v : α) : List (String × α) :=
  match l with
  | [] => [(k, v)]
  | (k2, v2) :: rest => if k2 == k then (k2, v) :: rest else (k2, v2) :: dictSet rest k v

/-- `zpy.material.verify` (all in-repo callers use `check_none=True`, the
default, which is the behaviour embedded here).  Note: the source reassigns
`mat = bpy.data.materials.get(mat)` before interpolating `mat` into the
error f-string, so on failure the message always renders `None`, never the
requested name. -/
def verify (mat : MatArg) (st : State) : Except PyError Material :=
  match mat with
  | .byName s =>
    match findMat st s with
    | some m => .ok m
    | none => .error (.valueError "Could not find material None.")
  | .byRef n =>
    match findMat st n with
    | some m => .ok m
    | none => .error .danglingRef

/-- Read a scalar `default_value`: `node.inputs[sname].default_value`. -/
def getInputValue (node : Node) (sname : String) : Option ℚ :=
  match node.inputs.find? (fun s => s.name == sname) with
  | some sock => sock.value.head?
  | none => none

/-- `mat.node_tree.nodes.get('Principled BSDF')`. -/
def findBsdf (m : Material) : Option Node :=
  m.node_tree.nodes.find? (fun nd => nd.name == "Principled BSDF")

/-- `zpy.material.get_mat_props`: returns the zero triple when the material
has no Principled BSDF node (with a warning in the source). -/
def get_mat_props (mat : MatArg) (st : State) : Except PyError (ℚ × ℚ × ℚ) :=
  match verify mat st with
  | .error e => .error e
  | .ok m =>
    match findBsdf m with
    | none => .ok (0, 0, 0)
    | some bsdf =>
      match getInputValue bsdf "Roughness", getInputValue bsdf "Metallic",
          getInputValue bsdf "Specular" with
      | some r, some mt, some sp => .ok (r, mt, sp)
      | _, _, _ => .error (.keyError "bsdf input socket")

/-- `node.inputs[sname].default_value += p` applied inside a node. -/
def addToSocket (nd : Node) (sname : String) (p : ℚ) : Node :=
  { nd with inputs := nd.inputs.map fun s =>
      if s.name == sname then { s with value := [s.value.headD 0 + p] } else s }

/-- One `bsdf_node.inputs[sname].default_value += p` statement on a tree:
raises a key error when the socket does not exist (Python `inputs[...]`). -/
def addToSocketE (t : NodeTree) (nodeName sname : String) (p : ℚ) :
    Except PyError NodeTree :=
  match t.nodes.find? (fun nd => nd.name == nodeName) with
  | none => .error (.keyError sname)
  | some nd =>
    match nd.inputs.find? (fun s => s.name == sname) with
    | none => .error (.keyError sname)
    | some _ =>
      .ok { t with nodes := t.nodes.map fun n2 =>
        if n2.name == nodeName then addToSocket n2 sname p else n2 }

/-- Replace the node tree of the material named `n`. -/
def updateTree (st : State) (n : String) (t : NodeTree) : State :=
  updateMat st n (fun m => { m with node_tree := t })

/-- `zpy.material.set_mat_props`.  Faithful to the source: the three
assignment statements use `+=`, so the given triple is ADDED to the current
socket values, not assigned.  Returns without writing when the material has
no Principled BSDF node. -/
def set_mat_props (mat : MatArg) (props : ℚ × ℚ × ℚ) (st : State) :
    Except PyError Unit × State :=
  match verify mat st with
  | .error e => (.error e, st)
  | .ok m =>
    match findBsdf m with
    | none => (.ok (), st)
    | some _ =>
      match addToSocketE m.node_tree "Principled BSDF" "Roughness" props.1 with
      | .error e => (.error e, st)
      | .ok t1 =>
        match addToSocketE t1 "Principled BSDF" "Metallic" props.2.1 with
        | .error e => (.error e, updateTree st m.name t1)
        | .ok t2 =>
          match addToSocketE t2 "Principled BSDF" "Specular" props.2.2 with
          | .error e => (.error e, updateTree st m.name t2)
          | .ok t3 => (.ok (), updateTree st m.name t3)

/-- `mat.name` evaluated on a `Union[str, Material]` argument: a Python
`str` has no attribute `name`, so the name-string case raises an attribute
error (inside the `log.info` f-string, before anything else runs). -/
def matArgName (mat : MatArg) : Except PyError String :=
  match mat with
  | .byName _ => .error (.attributeError "str object has no attribute name")
  | .byRef n => .ok n

/-- `zpy.material.save_material_props`: stores the current triple in
`_SAVED_MATERIALS` under `mat.name`. -/
def save_material_props (mat : MatArg) (st : State) : Except PyError Unit × State :=
  match matArgName mat with
  | .error e => (.error e, st)
  | .ok n =>
    match get_mat_props mat st with
    | .error e => (.error e, st)
    | .ok props => (.ok (), { st with saved := dictSet st.saved n props })

/-- `zpy.material.restore_material_props`: `_SAVED_MATERIALS[mat.name]`
raises a key error when absent, then the stored triple is passed to
`set_mat_props`. -/
def restore_material_props (mat : MatArg) (st : State) : Except PyError Unit × State :=
  match matArgName mat with
  | .error e => (.error e, st)
  | .ok n =>
    match dictGet st.saved n with
    | none => (.error (.keyError n), st)
    | some props => set_mat_props mat props st

/-- The loop body of `restore_all_material_props` over the dict items. -/
def restoreAllGo (entries : List (String × (ℚ × ℚ × ℚ))) (st : State) :
    Except PyError Unit × State :=
  match entries with
  | [] => (.ok (), st)
  | (n, props) :: rest =>
    match set_mat_props (.byName n) props st with
    | (.error e, st1) => (.error e, st1)
    | (.ok _, st1) => restoreAllGo rest st1

/-- `zpy.material.restore_all_material_props`: iterates the saved dict in
insertion order, passing each material NAME to `set_mat_props`. -/
def restore_all_material_props (st : State) : Except PyError Unit × State :=
  restoreAllGo st.saved st

/-- `zpy.material.jitter`.  `random.gauss(0, std)` is modelled as `std * z`
for an arbitrary standard draw `z` supplied as an explicit argument (for
`std = 0` the Python call returns exactly `0.0`, as does `std * z`). -/
def jitter (mat : MatArg) (std : ℚ) (save_first_time : Bool) (z : ℚ × ℚ × ℚ)
    (st : State) : Except PyError Unit × State :=
  match verify mat st with
  | .error e => (.error e, st)
  | .ok m =>
    match (if save_first_time then
            (if (dictGet st.saved m.name).isNone
             then save_material_props (.byRef m.name) st
             else restore_material_props (.byRef m.name) st)
           else (.ok (), st)) with
    | (.error e, st1) => (.error e, st1)
    | (.ok _, st1) =>
      match get_mat_props (.byRef m.name) st1 with
      | .error e => (.error e, st1)
      | .ok props =>
        set_mat_props (.byRef m.name)
          (props.1 + std * z.1, props.2.1 + std * z.2.1, props.2.2 + std * z.2.2) st1

/-! Host (bpy) semantics needed by the material constructors: the default
node tree a material receives when `use_nodes` is first enabled, node
creation and removal. -/

/-- The default Principled BSDF node Blender creates when `use_nodes` is
enabled (with its factory socket values). -/
def defaultBsdfNode : Node :=
  { name := "Principled BSDF", ntype := "ShaderNodeBsdfPrincipled",
    inputs := [ { name := "Base Color", value := [4/5, 4/5, 4/5, 1] },
                { name := "Metallic", value := [0] },
                { name := "Roughness", value := [1/2] },
                { name := "Specular", value := [1/2] } ] }

/-- The default Material Output node (its Surface input holds no scalar). -/
def defaultOutputNode : Node :=
  { name := "Material Output", ntype := "ShaderNodeOutputMaterial",
    inputs := [ { name := "Surface", value := [] } ] }

/-- The default tree: BSDF linked into the output node. -/
def defaultNodeTree : NodeTree :=
  { nodes := [defaultBsdfNode, defaultOutputNode],
    links := [ { fromNode := "Principled BSDF", fromSocket := "BSDF",
                 toNode := "Material Output", toSocket := "Surface" } ] }

/-- `mat.use_nodes = True`: populates the default tree the first time, a
no-op when nodes are already in use. -/
def enableUseNodes (m : Material) : Material :=
  if m.use_nodes then m
  else { m with use_nodes := true, node_tree := defaultNodeTree }

/-- `bpy.data.materials.new(name=n)`: a fresh material, nodes not yet in
use. -/
def newMaterial (n : String) : Material :=
  { name := n, use_nodes := false, node_tree := { nodes := [], links := [] } }

/-- `node_tree.nodes.remove(node)` on an actual node: Blender also drops
every link attached to the removed node. -/
def removeNode (t : NodeTree) (n : String) : NodeTree :=
  { nodes := t.nodes.filter (fun nd => nd.name != n),
    links := t.links.filter (fun l => l.fromNode != n && l.toNode != n) }

/-- `nodes.new('ShaderNodeBsdfDiffuse')`: default name and sockets. -/
def newDiffuseNode : Node :=
  { name := "Diffuse BSDF", ntype := "ShaderNodeBsdfDiffuse",
    inputs := [ { name := "Color", value := [4/5, 4/5, 4/5, 1] },
                { name := "Roughness", value := [0] } ] }

/-- `bsdf_node.inputs[sname].default_value = v` (plain assignment). -/
def setSocketValue (nd : Node) (sname : String) (v : List ℚ) : Node :=
  { nd with inputs := nd.inputs.map fun s =>
      if s.name == sname then { s with value := v } else s }

/-- Stand-in for the Python default name `str(color)` (only used when no
name is passed; no theorem depends on its exact text). -/
def pyStrColor (color : List ℚ) : String :=
  "(" ++ String.intercalate ", " (color.map fun q => toString q.num ++ "/" ++ toString q.den) ++ ")"

/-- `zpy.material.make_mat_from_color`.  Faithful to the source: the
material is looked up by name and created only if absent; `use_nodes` is
enabled; then `nodes.remove(nodes.get('Principled BSDF'))` runs WITHOUT a
None check, so when the tree has no Principled BSDF node (as after a
previous call removed it) the host raises a type error, with the mutations
so far (material creation, `use_nodes`) already applied. -/
def make_mat_from_color (color : List ℚ) (nameOpt : Option String) (st : State) :
    (Except PyError Material) × State :=
  let name := nameOpt.getD (pyStrColor color)
  let p0 : Material × State :=
    match findMat st name with
    | some m => (m, st)
    | none => (newMaterial name, { st with materials := st.materials ++ [newMaterial name] })
  let m1 := enableUseNodes p0.1
  let st1 := updateMat p0.2 name (fun _ => m1)
  match findBsdf m1 with
  | none =>
    (.error (.typeError "Node.remove expected a ShaderNode type, not NoneType"), st1)
  | some bsdf =>
    match m1.node_tree.nodes.find? (fun nd => nd.name == "Material Output") with
    | none =>
      let t1 := removeNode m1.node_tree bsdf.name
      let dn := setSocketValue newDiffuseNode "Color" (color ++ [1])
      let t2 : NodeTree := { t1 with nodes := t1.nodes ++ [dn] }
      (.error (.attributeError "NoneType object has no attribute inputs"),
        updateMat st1 name (fun m => { m with node_tree := t2 }))
    | some outNode =>
      let t1 := removeNode m1.node_tree bsdf.name
      let dn := setSocketValue newDiffuseNode "Color" (color ++ [1])
      let t2 : NodeTree := { t1 with nodes := t1.nodes ++ [dn] }
      let t3 : NodeTree := { t2 with links := t2.links ++
        [ { fromNode := dn.name, fromSocket := "0",
            toNode := outNode.name, toSocket := "0" } ] }
      let m2 : Material := { m1 with node_tree := t3 }
      (.ok m2, updateMat st1 name (fun _ => m2))

/-- Set the active material of every object named `n`. -/
def updateObjActive (st : State) (n : String) (matn : String) : State :=
  { st with objects := st.objects.map fun o =>
      if o.name == n then { o with active_material := some matn } else o }

/-- Modelled from the spec: `zpy.objects.verify` lives in `zpy/objects.py`,
which is not part of the sources here.  Per the spec, `set_mat` "resolves
both arguments (accepting either a name string or a direct reference)" and
a lookup failure "raises a value error with the offending identifier". -/
def objectsVerify (obj : ObjArg) (st : State) : Except PyError Object :=
  match obj with
  | .byName s =>
    match findObj st s with
    | some o => .ok o
    | none => .error (.valueError ("Could not find object " ++ s ++ "."))
  | .byRef n =>
    match findObj st n with
    | some o => .ok o
    | none => .error .danglingRef

/-- The `for child in obj.children` loop of `set_mat`: runs `step` (the
recursive call) on each child in order, propagating a raised exception. -/
def runChildren (step : String → State → Except PyError Unit × State) :
    List String → State → Except PyError Unit × State
  | [], st => (.ok (), st)
  | c :: rest, st =>
    match step c st with
    | (.error e, st1) => (.error e, st1)
    | (.ok _, st1) => runChildren step rest st1

/-- `zpy.material.set_mat`.  The source recurses natively on the object
hierarchy; the embedding carries a fuel bound for the recursion depth
(exhausting it models Python's recursion error on unboundedly deep or
cyclic hierarchies; theorems supply sufficient fuel).  Objects without an
active-material slot are skipped with a warning.  The recursive call passes
the resolved child and material references and leaves `recursive=True`. -/
def set_mat : Nat → ObjArg → MatArg → Bool → State → Except PyError Unit × State
  | 0, _, _, _, st => (.error .recursionError, st)
  | fuel + 1, obj, mat, recursive, st =>
    match objectsVerify obj st with
    | .error e => (.error e, st)
    | .ok o =>
      match verify mat st with
      | .error e => (.error e, st)
      | .ok m =>
        if o.has_material_slot then
          let st1 := updateObjActive st o.name m.name
          if recursive then
            runChildren (fun c s => set_mat fuel (.byRef c) (.byRef m.name) true s)
              o.children st1
          else (.ok (), st1)
        else (.ok (), st)

/-- The fixed enumeration of AOV styles. -/
def valid_styles : List String := ["instance", "category"]

/-- The assertion message for an invalid style (the Python f-string renders
the valid list with quotes; the quoting is immaterial here). -/
def aovStyleMsg (style : String) : String :=
  "Invalid style " ++ style ++ " for AOV material output node, must be in [instance, category]."

/-- `nodes.new('ShaderNodeVertexColor')`: default name and sockets. -/
def defaultVertexColorNode : Node :=
  { name := "Vertex Color", ntype := "ShaderNodeVertexColor", inputs := [] }

/-- `nodes.new('ShaderNodeOutputAOV')`: default name and sockets. -/
def defaultAovOutputNode : Node :=
  { name := "AOV Output", ntype := "ShaderNodeOutputAOV",
    inputs := [ { name := "Color", value := [0, 0, 0, 1] } ] }

/-- Write a mutated node back over the node it came from (found case), or
append the freshly created node (created case). -/
def replaceOrAppendNode (t : NodeTree) (oldName : Option String) (nd : Node) : NodeTree :=
  match oldName with
  | some onm => { t with nodes := t.nodes.map fun n2 => if n2.name == onm then nd else n2 }
  | none => { t with nodes := t.nodes ++ [nd] }

/-- The per-material body of `make_aov_material_output_node`: get-or-create
the vertex color node, set its layer and name; get-or-create the AOV output
node by linear name scan; link color output to AOV input. -/
def aovProcessMat (style : String) (st : State) (mname : String) :
    Except PyError Unit × State :=
  match findMat st mname with
  | none => (.error .danglingRef, st)
  | some m0 =>
    let m1 := enableUseNodes m0
    let vcName := style ++ " Vertex Color"
    let vcFound := m1.node_tree.nodes.find? (fun nd => nd.name == vcName)
    let vc0 := vcFound.getD defaultVertexColorNode
    let vc1 : Node := { vc0 with layer_name := style, name := vcName }
    let t1 := replaceOrAppendNode m1.node_tree (vcFound.map (fun nd => nd.name)) vc1
    let aovFound := t1.nodes.find? (fun nd => nd.name == style)
    let aov0 := aovFound.getD defaultAovOutputNode
    let aov1 : Node := { aov0 with name := style }
    let t2 := replaceOrAppendNode t1 (aovFound.map (fun nd => nd.name)) aov1
    let t3 : NodeTree := { t2 with links := t2.links ++
      [ { fromNode := vcName, fromSocket := "Color", toNode := style, toSocket := "Color" } ] }
    (.ok (), updateMat st mname (fun _ => { m1 with node_tree := t3 }))

/-- The `for mat in all_mats` loop of `make_aov_material_output_node`. -/
def aovGo (style : String) : List String → State → Except PyError Unit × State
  | [], st => (.ok (), st)
  | mname :: rest, st =>
    match aovProcessMat style st mname with
    | (.error e, st1) => (.error e, st1)
    | (.ok _, st1) => aovGo style rest st1

/-- `zpy.material.make_aov_material_output_node`.  The engine check at the
top of the source only compares `render.engine` to CYCLES (the second
comparison is a bare expression, not an assignment), so it never changes
state; the style assertion then runs before any material is touched. -/
def make_aov_material_output_node (matOpt objOpt : Option String) (style : String)
    (st : State) : Except PyError Unit × State :=
  if style ∈ valid_styles then
    match matOpt with
    | some mname => aovGo style [mname] st
    | none =>
      match objOpt with
      | some oname =>
        match findObj st oname with
        | none => (.error .danglingRef, st)
        | some o =>
          match o.active_material with
          | none => (.ok (), st)
          | some am =>
            let all_mats := if o.material_slots.length > 1 then o.material_slots else [am]
            aovGo style all_mats st
      | none => (.error (.valueError "Must pass in an Object or Material"), st)
  else (.error (.assertionError (aovStyleMsg style)), st)

/-! Concrete fixtures used by the counterexamples and witnesses. -/

/-- A scene with nothing in it. -/
def emptyState : State :=
  { materials := [], objects := [], render_engine := "CYCLES", saved := [] }

/-- A Principled BSDF node whose three tracked sockets all hold 1/2. -/
def bsdfHalf : Node :=
  { name := "Principled BSDF", ntype := "ShaderNodeBsdfPrincipled",
    inputs := [ { name := "Roughness", value := [1/2] },
                { name := "Metallic", value := [1/2] },
                { name := "Specular", value := [1/2] } ] }

/-- A material whose three tracked parameters are (1/2, 1/2, 1/2). -/
def mat0half : Material :=
  { name := "mat0", use_nodes := true, node_tree := { nodes := [bsdfHalf], links := [] } }

/-- `mat0half` together with a saved snapshot equal to its current values. -/
def c1State : State :=
  { materials := [mat0half], objects := [], render_engine := "CYCLES",
    saved := [("mat0", (1/2, 1/2, 1/2))] }

/-- `mat0half` with an empty snapshot registry. -/
def c2State : State :=
  { materials := [mat0half], objects := [], render_engine := "CYCLES", saved := [] }

/-- A node-based material without a Principled BSDF node. -/
def matNoBsdf : Material :=
  { name := "flat", use_nodes := true, node_tree := { nodes := [], links := [] } }

/-- A scene holding only `matNoBsdf`. -/
def c7State : State :=
  { materials := [matNoBsdf], objects := [], render_engine := "CYCLES", saved := [] }

/-- A parent object with two children. -/
def objP : Object :=
  { name := "p", has_material_slot := true, active_material := none,
    material_slots := [], children := ["a", "b"] }

/-- First child of `objP`. -/
def objA : Object :=
  { name := "a", has_material_slot := true, active_material := none,
    material_slots := [], children := [] }

/-- Second child of `objP`. -/
def objB : Object :=
  { name := "b", has_material_slot := true, active_material := none,
    material_slots := [], children := [] }

/-- Parent-with-two-children scene, with `mat0half` available to assign. -/
def c8State : State :=
  { materials := [mat0half], objects := [objP, objA, objB],
    render_engine := "CYCLES", saved := [] }

/-- A scene with one unsnapshotted material and one unrelated registry
entry. -/
def c9State : State :=
  { materials := [mat0half], objects := [], render_engine := "CYCLES",
    saved := [("other", (1, 2, 3))] }

/-- Whether a call returned normally. -/
def exceptOk {α : Type} : Except PyError α → Bool
  | .ok _ => true
  | .error _ => false

/-- The active material of the object named `q`, when the object exists. -/
def activeOf (st : State) (q : String) : Option (Option String) :=
  (findObj st q).map Object.active_material

/-! General lemmas about the embedded operations. -/

theorem findMat_name_eq {st : State} {n : String} {m : Material}
    (h : findMat st n = some m) : m.name = n := by
  have h2 := List.find?_some h
  simpa using h2

theorem findObj_name_eq {st : State} {n : String} {o : Object}
    (h : findObj st n = some o) : o.name = n := by
  have h2 := List.find?_some h
  simpa using h2

theorem verify_byRef_ok {st : State} {n : String} {m : Material}
    (h : findMat st n = some m) : verify (.byRef n) st = .ok m := by
  simp [verify, h]

theorem get_mat_props_no_bsdf {st : State} {n : String} {m : Material}
    (h1 : findMat st n = some m) (h2 : findBsdf m = none) :
    get_mat_props (.byRef n) st = .ok (0, 0, 0) := by
  simp [get_mat_props, verify, h1, h2]

theorem set_mat_props_no_bsdf {st : State} {n : String} {m : Material}
    (h1 : findMat st n = some m) (h2 : findBsdf m = none) (props : ℚ × ℚ × ℚ) :
    set_mat_props (.byRef n) props st = (.ok (), st) := by
  simp [set_mat_props, verify, h1, h2]

theorem set_mat_props_saved (mat : MatArg) (props : ℚ × ℚ × ℚ) (st : State) :
    ((set_mat_props mat props st).2).saved = st.saved := by
  unfold set_mat_props updateTree updateMat
  repeat' split
  all_goals rfl

theorem restore_saved (mat : MatArg) (st : State) :
    ((restore_material_props mat st).2).saved = st.saved := by
  unfold restore_material_props
  split
  · rfl
  · split
    · rfl
    · exact set_mat_props_saved _ _ _

theorem restoreAllGo_saved (entries : List (String × (ℚ × ℚ × ℚ))) (st : State) :
    ((restoreAllGo entries st).2).saved = st.saved := by
  induction entries generalizing st with
  | nil => rfl
  | cons e rest ih =>
    obtain ⟨n, props⟩ := e
    have hs := set_mat_props_saved (.byName n) props st
    unfold restoreAllGo
    rcases h : set_mat_props (.byName n) props st with ⟨r, st1⟩
    rw [h] at hs
    cases r with
    | error err => exact hs
    | ok u => rw [ih st1]; exact hs

theorem restore_all_saved (st : State) :
    ((restore_all_material_props st).2).saved = st.saved :=
  restoreAllGo_saved st.saved st

theorem dictGet_dictSet_self {α : Type} (l : List (String × α)) (k : String) (v : α) :
    dictGet (dictSet l k v) k = some v := by
  induction l with
  | nil => simp [dictSet, dictGet]
  | cons kv rest ih =>
    obtain ⟨k2, v2⟩ := kv
    by_cases hk : k2 = k
    · subst hk; simp [dictSet, dictGet]
    · simp [dictSet, dictGet, hk, ih]

theorem dictGet_dictSet_ne {α : Type} (l : List (String × α)) {k n : String}
    (h : n ≠ k) (v : α) : dictGet (dictSet l k v) n = dictGet l n := by
  induction l with
  | nil => simp [dictSet, dictGet, Ne.symm h]
  | cons kv rest ih =>
    obtain ⟨k2, v2⟩ := kv
    by_cases hk : k2 = k
    · subst hk
      simp [dictSet, dictGet, Ne.symm h]
    · simp [dictSet, dictGet, hk, ih]

theorem dictGet_none_not_mem {α : Type} {l : List (String × α)} {k : String}
    (h : dictGet l k = none) : k ∉ l.map Prod.fst := by
  induction l with
  | nil => simp
  | cons kv rest ih =>
    obtain ⟨k2, v2⟩ := kv
    by_cases hk : k2 = k
    · subst hk; simp [dictGet] at h
    · simp [dictGet, hk] at h
      simpa [Ne.symm hk] using ih h

theorem dictSet_keys_absent {α : Type} {l : List (String × α)} {k : String}
    (h : dictGet l k = none) (v : α) :
    (dictSet l k v).map Prod.fst = l.map Prod.fst ++ [k] := by
  induction l with
  | nil => simp [dictSet]
  | cons kv rest ih =>
    obtain ⟨k2, v2⟩ := kv
    by_cases hk : k2 = k
    · subst hk; simp [dictGet] at h
    · simp [dictGet, hk] at h
      simp [dictSet, hk, ih h]

/-! Claim theorems. -/

/-- C1: refuted on the code as written.  `set_mat_props` increments the
three node inputs with `+=` instead of assigning them, so
`restore_material_props` ADDS the stored snapshot to the current values
rather than writing it back verbatim: with snapshot (1/2, 1/2, 1/2) and
current values (1/2, 1/2, 1/2) the parameters after restore are (1, 1, 1),
not the snapshot. -/
theorem c1_restore_adds_snapshot :
    dictGet c1State.saved "mat0" = some (1/2, 1/2, 1/2)
    ∧ get_mat_props (.byRef "mat0") c1State = .ok (1/2, 1/2, 1/2)
    ∧ (restore_material_props (.byRef "mat0") c1State).1 = .ok ()
    ∧ get_mat_props (.byRef "mat0") (restore_material_props (.byRef "mat0") c1State).2
        = .ok (1, 1, 1)
    ∧ ((1 : ℚ)) ≠ ((1/2 : ℚ)) := by
  refine ⟨rfl, rfl, ?_, ?_, by norm_num⟩
  all_goals
    simp +decide [restore_material_props, save_material_props, jitter, matArgName,
      dictGet, dictSet, c1State, c2State, mat0half, bsdfHalf, set_mat_props, verify,
      findMat, findBsdf, addToSocketE, addToSocket, updateTree, updateMat,
      get_mat_props, getInputValue]
  all_goals norm_num

/-- C2: refuted on the code as written.  `save` stores the current triple,
but `restore` ADDS it back (`+=` in `set_mat_props`), so the save/restore
round trip doubles the three parameters: starting from (1/2, 1/2, 1/2) the
material ends at (1, 1, 1). -/
theorem c2_save_restore_doubles :
    get_mat_props (.byRef "mat0") c2State = .ok (1/2, 1/2, 1/2)
    ∧ (save_material_props (.byRef "mat0") c2State).1 = .ok ()
    ∧ (restore_material_props (.byRef "mat0")
        (save_material_props (.byRef "mat0") c2State).2).1 = .ok ()
    ∧ get_mat_props (.byRef "mat0")
        (restore_material_props (.byRef "mat0")
          (save_material_props (.byRef "mat0") c2State).2).2 = .ok (1, 1, 1)
    ∧ ((1 : ℚ)) ≠ ((1/2 : ℚ)) := by
  refine ⟨rfl, rfl, ?_, ?_, by norm_num⟩
  all_goals
    simp +decide [restore_material_props, save_material_props, jitter, matArgName,
      dictGet, dictSet, c1State, c2State, mat0half, bsdfHalf, set_mat_props, verify,
      findMat, findBsdf, addToSocketE, addToSocket, updateTree, updateMat,
      get_mat_props, getInputValue]
  all_goals norm_num

/-- C3: refuted on the code as written.  With `std = 0` the Gaussian draw
is exactly 0, but because `set_mat_props` uses `+=`, the first
`jitter(M, std=0)` doubles the parameters and the second one triples the
restore target again: starting from (1/2, 1/2, 1/2) the material ends at
(3, 3, 3), not the original baseline.  (The `z` arguments are the
modelled `random.gauss` standard draws; with `std = 0` they contribute
`0 * z = 0`, matching `random.gauss(0, 0) = 0.0`.) -/
theorem c3_zero_std_jitter_drifts :
    get_mat_props (.byRef "mat0") c2State = .ok (1/2, 1/2, 1/2)
    ∧ (jitter (.byRef "mat0") 0 true (2, 3, 5) c2State).1 = .ok ()
    ∧ (jitter (.byRef "mat0") 0 true (7, 11, 13)
        (jitter (.byRef "mat0") 0 true (2, 3, 5) c2State).2).1 = .ok ()
    ∧ get_mat_props (.byRef "mat0")
        (jitter (.byRef "mat0") 0 true (7, 11, 13)
          (jitter (.byRef "mat0") 0 true (2, 3, 5) c2State).2).2 = .ok (3, 3, 3)
    ∧ ((3 : ℚ)) ≠ ((1/2 : ℚ)) := by
  refine ⟨rfl, ?_, ?_, ?_, by norm_num⟩
  all_goals
    simp +decide [restore_material_props, save_material_props, jitter, matArgName,
      dictGet, dictSet, c1State, c2State, mat0half, bsdfHalf, set_mat_props, verify,
      findMat, findBsdf, addToSocketE, addToSocket, updateTree, updateMat,
      get_mat_props, getInputValue]
  all_goals norm_num

/-- C4: refuted on the code as written.  The first
`make_mat_from_color((1,0,0), name="red")` creates the material, enables
nodes and REMOVES its Principled BSDF node.  The second call does find the
same material by name (no duplicate is created), but then
`nodes.remove(nodes.get('Principled BSDF'))` runs on a tree that no longer
has that node, so the host raises a type error instead of succeeding. -/
theorem c4_second_call_raises :
    exceptOk (make_mat_from_color [1, 0, 0] (some "red") emptyState).1 = true
    ∧ (make_mat_from_color [1, 0, 0] (some "red") emptyState).2.materials.map Material.name
        = ["red"]
    ∧ (make_mat_from_color [1, 0, 0] (some "red")
        (make_mat_from_color [1, 0, 0] (some "red") emptyState).2).1
      = .error (.typeError "Node.remove expected a ShaderNode type, not NoneType")
    ∧ (make_mat_from_color [1, 0, 0] (some "red")
        (make_mat_from_color [1, 0, 0] (some "red") emptyState).2).2.materials.map Material.name
      = ["red"] :=
  ⟨rfl, rfl, rfl, rfl⟩

/-- C5: refuted on the code as written.  `verify` reassigns
`mat = bpy.data.materials.get(mat)` (which is `None` on a miss) before
interpolating `mat` into the error f-string, so for EVERY unmatched name
the raised value error reads "Could not find material None." — the
offending identifier never appears in the message. -/
theorem c5_verify_message_lacks_identifier (s : String) :
    verify (.byName s) emptyState = .error (.valueError "Could not find material None.") :=
  rfl

/-- C10: confirmed.  `save_material_props` and `restore_material_props`
evaluate `mat.name` on their argument without resolving name strings, so a
name string raises an attribute error immediately, before the registry (or
anything else in the state) is touched. -/
theorem c10_name_string_raises_attribute_error (s : String) (st : State) :
    save_material_props (.byName s) st
      = (.error (.attributeError "str object has no attribute name"), st)
    ∧ restore_material_props (.byName s) st
      = (.error (.attributeError "str object has no attribute name"), st) :=
  ⟨rfl, rfl⟩

/-- C6: confirmed.  For any style outside the fixed enumeration,
`make_aov_material_output_node` raises the assertion error before touching
anything: the returned state is exactly the input state, whatever material
or object arguments were passed.  (The engine check that precedes the
assertion only compares `render.engine` to CYCLES — the would-be switch is
a bare comparison, not an assignment — so it never mutates either.) -/
theorem c6_invalid_style_rejected_before_mutation (matOpt objOpt : Option String)
    (style : String) (st : State) (h : style ∉ valid_styles) :
    make_aov_material_output_node matOpt objOpt style st
      = (.error (.assertionError (aovStyleMsg style)), st) := by
  simp [make_aov_material_output_node, h]

theorem c6_witness :
    "bogus" ∉ valid_styles
    ∧ make_aov_material_output_node none none "bogus" c8State
      = (.error (.assertionError (aovStyleMsg "bogus")), c8State) :=
  ⟨by decide, c6_invalid_style_rejected_before_mutation none none "bogus" c8State (by decide)⟩

/-- C7: confirmed.  On a material without a Principled BSDF node,
`get_mat_props` returns the zero triple, `set_mat_props` returns without
writing (the state is untouched), and `jitter` — for any std,
`save_first_time` flag and noise draws — returns normally and leaves
`bpy.data.materials` (hence the material's node graph) unchanged. -/
theorem c7_jitter_inert_without_bsdf (st : State) (n : String) (m : Material)
    (h1 : findMat st n = some m) (h2 : findBsdf m = none)
    (std : ℚ) (sft : Bool) (z props : ℚ × ℚ × ℚ) :
    get_mat_props (.byRef n) st = .ok (0, 0, 0)
    ∧ set_mat_props (.byRef n) props st = (.ok (), st)
    ∧ (jitter (.byRef n) std sft z st).1 = .ok ()
    ∧ (jitter (.byRef n) std sft z st).2.materials = st.materials := by
  have hn : m.name = n := findMat_name_eq h1
  subst hn
  have hj : (jitter (.byRef m.name) std sft z st).1 = .ok ()
      ∧ (jitter (.byRef m.name) std sft z st).2.materials = st.materials := by
    cases sft with
    | false =>
      constructor <;>
        simp [jitter, verify, h1, get_mat_props_no_bsdf h1 h2, set_mat_props_no_bsdf h1 h2]
    | true =>
      cases hdg : dictGet st.saved m.name with
      | none =>
        have hget : ∀ s2, get_mat_props (.byRef m.name) { st with saved := s2 }
            = .ok (0, 0, 0) :=
          fun s2 => @get_mat_props_no_bsdf { st with saved := s2 } m.name m h1 h2
        have hset : ∀ s2 props2, set_mat_props (.byRef m.name) props2 { st with saved := s2 }
            = (.ok (), { st with saved := s2 }) :=
          fun s2 props2 => @set_mat_props_no_bsdf { st with saved := s2 } m.name m h1 h2 props2
        constructor <;>
          simp [jitter, verify, h1, hdg, save_material_props, matArgName,
            get_mat_props_no_bsdf h1 h2, hget, hset]
      | some v =>
        constructor <;>
          simp [jitter, verify, h1, hdg, restore_material_props, matArgName,
            get_mat_props_no_bsdf h1 h2, set_mat_props_no_bsdf h1 h2]
  exact ⟨get_mat_props_no_bsdf h1 h2, set_mat_props_no_bsdf h1 h2 props, hj.1, hj.2⟩

theorem c7_witness :
    findMat c7State "flat" = some matNoBsdf
    ∧ findBsdf matNoBsdf = none
    ∧ (get_mat_props (.byRef "flat") c7State = .ok (0, 0, 0)
      ∧ set_mat_props (.byRef "flat") (7, 8, 9) c7State = (.ok (), c7State)
      ∧ (jitter (.byRef "flat") 2 true (1, 2, 3) c7State).1 = .ok ()
      ∧ (jitter (.byRef "flat") 2 true (1, 2, 3) c7State).2.materials
          = c7State.materials) :=
  ⟨by decide, by decide,
    c7_jitter_inert_without_bsdf c7State "flat" matNoBsdf (by decide) (by decide)
      2 true (1, 2, 3) (7, 8, 9)⟩

theorem findObj_updateObjActive (st : State) (un matn q : String) :
    findObj (updateObjActive st un matn) q
      = (findObj st q).map (fun o =>
          if o.name == un then { o with active_material := some matn } else o) := by
  unfold findObj updateObjActive
  rw [List.find?_map]
  have hpf : ((fun o : Object => o.name == q) ∘ fun o : Object =>
      if o.name == un then { o with active_material := some matn } else o)
      = fun o : Object => o.name == q := by
    funext o
    by_cases h : o.name = un <;> simp [h]
  rw [hpf]

/-- C8: confirmed.  With enough recursion depth, `set_mat` with
`recursive=True` on a parent whose two children are leaves assigns the
material as the active material of the parent and of both children. -/
theorem c8_set_mat_recursive_all_children (fuel : Nat) (st : State) (p a b : Object)
    (m : Material)
    (hp : findObj st p.name = some p) (ha : findObj st a.name = some a)
    (hb : findObj st b.name = some b) (hm : findMat st m.name = some m)
    (hpc : p.children = [a.name, b.name]) (hac : a.children = []) (hbc : b.children = [])
    (hps : p.has_material_slot = true) (hcs1 : a.has_material_slot = true)
    (hcs2 : b.has_material_slot = true)
    (hap : a.name ≠ p.name) (hbp : b.name ≠ p.name) (hba : b.name ≠ a.name) :
    (set_mat (fuel + 2) (.byRef p.name) (.byRef m.name) true st).1 = .ok ()
    ∧ activeOf (set_mat (fuel + 2) (.byRef p.name) (.byRef m.name) true st).2 p.name
        = some (some m.name)
    ∧ activeOf (set_mat (fuel + 2) (.byRef p.name) (.byRef m.name) true st).2 a.name
        = some (some m.name)
    ∧ activeOf (set_mat (fuel + 2) (.byRef p.name) (.byRef m.name) true st).2 b.name
        = some (some m.name) := by
  have hov : objectsVerify (.byRef p.name) st = .ok p := by simp [objectsVerify, hp]
  have hvm : verify (.byRef m.name) st = .ok m := by simp [verify, hm]
  have hfa1 : findObj (updateObjActive st p.name m.name) a.name = some a := by
    rw [findObj_updateObjActive]; simp [ha, hap]
  have hova : objectsVerify (.byRef a.name) (updateObjActive st p.name m.name) = .ok a := by
    simp [objectsVerify, hfa1]
  have hfm1 : findMat (updateObjActive st p.name m.name) m.name = some m := hm
  have hvm1 : verify (.byRef m.name) (updateObjActive st p.name m.name) = .ok m := by
    simp [verify, hfm1]
  have hfb2 : findObj (updateObjActive (updateObjActive st p.name m.name) a.name m.name)
      b.name = some b := by
    rw [findObj_updateObjActive, findObj_updateObjActive]; simp [hb, hbp, hba]
  have hovb : objectsVerify (.byRef b.name)
      (updateObjActive (updateObjActive st p.name m.name) a.name m.name) = .ok b := by
    simp [objectsVerify, hfb2]
  have hfm2 : findMat (updateObjActive (updateObjActive st p.name m.name) a.name m.name)
      m.name = some m := hm
  have hvm2 : verify (.byRef m.name)
      (updateObjActive (updateObjActive st p.name m.name) a.name m.name) = .ok m := by
    simp [verify, hfm2]
  have e : set_mat (fuel + 2) (.byRef p.name) (.byRef m.name) true st
      = (.ok (), updateObjActive (updateObjActive (updateObjActive st p.name m.name)
          a.name m.name) b.name m.name) := by
    show set_mat (fuel + 1 + 1) (.byRef p.name) (.byRef m.name) true st = _
    simp only [set_mat, runChildren, hov, hvm, hova, hvm1, hovb, hvm2,
      hps, hcs1, hcs2, hpc, hac, hbc, if_true]
  refine ⟨by rw [e], ?_, ?_, ?_⟩ <;>
    · rw [e]
      simp [activeOf, findObj_updateObjActive, hp, ha, hb,
        hap, hbp, hba, Ne.symm hap, Ne.symm hbp, Ne.symm hba]

theorem c8_witness :
    findObj c8State "p" = some objP
    ∧ findObj c8State "a" = some objA
    ∧ findObj c8State "b" = some objB
    ∧ findMat c8State "mat0" = some mat0half
    ∧ ((set_mat 2 (.byRef "p") (.byRef "mat0") true c8State).1 = .ok ()
      ∧ activeOf (set_mat 2 (.byRef "p") (.byRef "mat0") true c8State).2 "p"
          = some (some "mat0")
      ∧ activeOf (set_mat 2 (.byRef "p") (.byRef "mat0") true c8State).2 "a"
          = some (some "mat0")
      ∧ activeOf (set_mat 2 (.byRef "p") (.byRef "mat0") true c8State).2 "b"
          = some (some "mat0")) :=
  ⟨rfl, rfl, rfl, rfl,
    c8_set_mat_recursive_all_children 0 c8State objP objA objB mat0half
      rfl rfl rfl rfl rfl rfl rfl rfl rfl rfl
      (by decide) (by decide) (by decide)⟩

theorem verify_ok_findMat {mat : MatArg} {st : State} {m : Material}
    (h : verify mat st = .ok m) : findMat st m.name = some m := by
  cases mat with
  | byName s =>
    cases hf : findMat st s with
    | some m2 =>
      unfold verify at h
      simp [hf] at h
      subst h
      rw [findMat_name_eq hf]
      exact hf
    | none =>
      unfold verify at h
      simp [hf] at h
  | byRef nr =>
    cases hf : findMat st nr with
    | some m2 =>
      unfold verify at h
      simp [hf] at h
      subst h
      rw [findMat_name_eq hf]
      exact hf
    | none =>
      unfold verify at h
      simp [hf] at h

theorem jitter_saved_cases (mat : MatArg) (std : ℚ) (sft : Bool) (z : ℚ × ℚ × ℚ)
    (st : State) :
    ((jitter mat std sft z st).2).saved = st.saved
    ∨ ∃ mn props2, dictGet st.saved mn = none
        ∧ ((jitter mat std sft z st).2).saved = dictSet st.saved mn props2 := by
  cases hv : verify mat st with
  | error e => exact Or.inl (by simp [jitter, hv])
  | ok m =>
    cases sft with
    | false =>
      cases hg : get_mat_props (.byRef m.name) st with
      | error e => exact Or.inl (by simp [jitter, hv, hg])
      | ok p => exact Or.inl (by simp [jitter, hv, hg, set_mat_props_saved])
    | true =>
      cases hdg : dictGet st.saved m.name with
      | some v2 =>
        have hres := set_mat_props_saved (.byRef m.name) v2 st
        rcases hsp : set_mat_props (.byRef m.name) v2 st with ⟨r, st1⟩
        rw [hsp] at hres
        replace hres : st1.saved = st.saved := hres
        refine Or.inl ?_
        cases r with
        | error e =>
          simp [jitter, hv, hdg, restore_material_props, matArgName, hsp, hres]
        | ok u =>
          cases hg2 : get_mat_props (.byRef m.name) st1 with
          | error e =>
            simp [jitter, hv, hdg, restore_material_props, matArgName, hsp, hg2, hres]
          | ok p2 =>
            simp [jitter, hv, hdg, restore_material_props, matArgName, hsp, hg2,
              set_mat_props_saved, hres]
      | none =>
        cases hg : get_mat_props (.byRef m.name) st with
        | error e =>
          exact Or.inl (by simp [jitter, hv, hdg, save_material_props, matArgName, hg])
        | ok p =>
          refine Or.inr ⟨m.name, p, hdg, ?_⟩
          cases hg2 : get_mat_props (.byRef m.name)
              { st with saved := dictSet st.saved m.name p } with
          | error e =>
            simp [jitter, hv, hdg, save_material_props, matArgName, hg, hg2]
          | ok p2 =>
            simp [jitter, hv, hdg, save_material_props, matArgName, hg, hg2,
              set_mat_props_saved]

theorem jitter_saved_pres (mat : MatArg) (std : ℚ) (sft : Bool) (z : ℚ × ℚ × ℚ)
    (st : State) {n : String} {v : ℚ × ℚ × ℚ} (hn : dictGet st.saved n = some v) :
    dictGet ((jitter mat std sft z st).2).saved n = some v := by
  rcases jitter_saved_cases mat std sft z st with h | ⟨mn, props2, habs, heq⟩
  · rw [h]; exact hn
  · rw [heq]
    have hne : n ≠ mn := by
      intro hEq
      subst hEq
      rw [hn] at habs
      cases habs
    rw [dictGet_dictSet_ne _ hne]
    exact hn

theorem jitter_saved_nodup (mat : MatArg) (std : ℚ) (sft : Bool) (z : ℚ × ℚ × ℚ)
    (st : State) (hnd : (st.saved.map Prod.fst).Nodup) :
    (((jitter mat std sft z st).2).saved.map Prod.fst).Nodup := by
  rcases jitter_saved_cases mat std sft z st with h | ⟨mn, props2, habs, heq⟩
  · rw [h]; exact hnd
  · rw [heq, dictSet_keys_absent habs]
    refine List.Nodup.append hnd (List.nodup_singleton mn) ?_
    simpa using dictGet_none_not_mem habs

theorem jitter_save_path_saved {st : State} {m : Material} {props0 : ℚ × ℚ × ℚ}
    (hm : findMat st m.name = some m) (habs : dictGet st.saved m.name = none)
    (hprops : get_mat_props (.byRef m.name) st = .ok props0) (std : ℚ) (z : ℚ × ℚ × ℚ) :
    ((jitter (.byRef m.name) std true z st).2).saved = dictSet st.saved m.name props0 := by
  have hv : verify (.byRef m.name) st = .ok m := verify_byRef_ok hm
  cases hg2 : get_mat_props (.byRef m.name)
      { st with saved := dictSet st.saved m.name props0 } with
  | error e =>
    simp [jitter, hv, habs, save_material_props, matArgName, hprops, hg2]
  | ok p2 =>
    simp [jitter, hv, habs, save_material_props, matArgName, hprops, hg2,
      set_mat_props_saved]

/-- C9: confirmed.  The registry holds at most one snapshot per material
name (key-uniqueness is preserved by every jitter call), the entry for a
material is created by the first `jitter(..., save_first_time=True)` call
(storing exactly the current property triple), and no later `jitter`,
`restore_material_props` or `restore_all_material_props` call ever
overwrites or removes an existing entry. -/
theorem c9_registry_write_once (st : State) (n : String) (v : ℚ × ℚ × ℚ)
    (mname : String) (m : Material) (props0 : ℚ × ℚ × ℚ) (std : ℚ) (z : ℚ × ℚ × ℚ)
    (hn : dictGet st.saved n = some v)
    (hm : findMat st mname = some m)
    (habs : dictGet st.saved m.name = none)
    (hprops : get_mat_props (.byRef mname) st = .ok props0)
    (hnd : (st.saved.map Prod.fst).Nodup) :
    dictGet ((jitter (.byRef mname) std true z st).2).saved m.name = some props0
    ∧ (∀ mat std2 sft z2, dictGet ((jitter mat std2 sft z2 st).2).saved n = some v)
    ∧ (∀ mat, dictGet ((restore_material_props mat st).2).saved n = some v)
    ∧ dictGet ((restore_all_material_props st).2).saved n = some v
    ∧ (∀ mat std2 sft z2, (((jitter mat std2 sft z2 st).2).saved.map Prod.fst).Nodup) := by
  have hname : m.name = mname := findMat_name_eq hm
  subst hname
  refine ⟨?_, ?_, ?_, ?_, ?_⟩
  · rw [jitter_save_path_saved hm habs hprops std z]
    exact dictGet_dictSet_self _ _ _
  · intro mat std2 sft z2
    exact jitter_saved_pres mat std2 sft z2 st hn
  · intro mat
    rw [restore_saved]
    exact hn
  · rw [restore_all_saved]
    exact hn
  · intro mat std2 sft z2
    exact jitter_saved_nodup mat std2 sft z2 st hnd

theorem c9_witness :
    dictGet c9State.saved "other" = some (1, 2, 3)
    ∧ findMat c9State "mat0" = some mat0half
    ∧ dictGet c9State.saved mat0half.name = none
    ∧ get_mat_props (.byRef "mat0") c9State = .ok (1/2, 1/2, 1/2)
    ∧ (c9State.saved.map Prod.fst).Nodup
    ∧ (dictGet ((jitter (.byRef "mat0") 1 true (1, 2, 3) c9State).2).saved "mat0"
          = some (1/2, 1/2, 1/2)
      ∧ (∀ mat std2 sft z2, dictGet ((jitter mat std2 sft z2 c9State).2).saved "other"
            = some (1, 2, 3))
      ∧ (∀ mat, dictGet ((restore_material_props mat c9State).2).saved "other"
            = some (1, 2, 3))
      ∧ dictGet ((restore_all_material_props c9State).2).saved "other" = some (1, 2, 3)
      ∧ (∀ mat std2 sft z2,
          (((jitter mat std2 sft z2 c9State).2).saved.map Prod.fst).Nodup)) :=
  ⟨rfl, rfl, rfl, rfl, by decide,
    c9_registry_write_once c9State "other" (1, 2, 3) "mat0" mat0half (1/2, 1/2, 1/2)
      1 (1, 2, 3) rfl rfl rfl rfl (by decide)⟩

end Zpy
